import Mathlib

/-!
Verification of the wallet credit-limit scorecard (`wallet_cr_limit_app.py`).

The core of the program is the single function `set_credit_limit`, which
validates its seven inputs, applies a four-gate decline cascade, sizes a
credit limit from a tiered table, rounds it to the nearest multiple of 10
(round-half-to-even, as Python's `round` does), and finalizes the decision.

We embed the function shallowly: Python's dynamically typed arguments become
`PyVal` (a number, a string, or anything else), numbers become `ℚ`, raised
exceptions become `Except PyError`, and the two sizing arms (the
"Individual Category" and "Business Category" blocks of the source) become
the helper functions `ind_limit` and `bus_limit`.
-/

/-- A dynamically typed Python value, as far as the scorecard inspects one:
`isinstance(x, (int, float))` holds exactly of `num` values and
`isinstance(x, str)` exactly of `str` values. -/
inductive PyVal where
  | num (q : ℚ)
  | str (s : String)
  | other
deriving DecidableEq

/-- The exceptions the scorecard can raise: `ValueError` from its explicit
validation checks, and `AttributeError` when it calls `.lower()` on a
non-string value. -/
inductive PyError where
  | valueError (msg : String)
  | attributeError (msg : String)
deriving DecidableEq

/-- Python's `str.lower()` for the ASCII strings the scorecard handles,
written by structural recursion on the character list so that it evaluates
inside the kernel. -/
def py_lower (s : String) : String := String.mk (s.data.map Char.toLower)

/-- Python's `str.upper()`, likewise. -/
def py_upper (s : String) : String := String.mk (s.data.map Char.toUpper)

/-- The six recognized CRB credit-quality levels, lower-cased (line 59). -/
def quality_levels : List String :=
  ["defaulter", "lowest", "low", "moderate", "high", "highest"]

/-- The five recognized business types (line 70). -/
def business_types : List String :=
  ["INDIVIDUAL", "SOLE_PROPRIETOR", "UNREGISTERED", "LIMITED_COMPANY", "PARTNERSHIP"]

/-- The default reason initialized at line 98 of the source. -/
def default_reason : String :=
  "Eligibility criteria met. Limit based on transaction activity."

/-- The reason set by the sum-below-1000 sizing branches (lines 119 and 142). -/
def no_qualify_reason : String :=
  "Customer\x27s average sum of credit value per month does not qualify a limit."

/-- The reason of the accept-but-zero finalization branch (line 152). -/
def accept_zero_reason : String :=
  "Customer eligible for credit. However, average sum of credit value per month does not qualify a limit."

/-- Python's `round(q, 0)`: round to the nearest integer, ties to even. -/
def round_half_even (q : ℚ) : ℤ :=
  if q - (⌊q⌋ : ℚ) < 1 / 2 then ⌊q⌋
  else if 1 / 2 < q - (⌊q⌋ : ℚ) then ⌊q⌋ + 1
  else if ⌊q⌋ % 2 = 0 then ⌊q⌋ else ⌊q⌋ + 1

/-- The final rounding of line 154: `round(credit_limit / 10, 0) * 10`. -/
def round10 (q : ℚ) : ℚ :=
  (round_half_even (q / 10) : ℚ) * 10

/-- Outcome of a sizing arm: either an early `return` of a full decision
triple, or a fall-through with the `credit_limit` and `reason` variables set
for the finalization at lines 148-154. -/
inductive SizeResult where
  | early (decision : String) (credit_limit : ℚ) (reason : String)
  | sized (credit_limit : ℚ) (reason : String)
deriving DecidableEq

/-- The "Individual Category" sizing arm, lines 101-123 of the source. -/
def ind_limit (crb_cr_quality : String)
    (length_on_platform median_avg_credits_per_month avg_sum_credits_per_month : ℚ) :
    SizeResult :=
  if py_lower crb_cr_quality ∈ ["lowest", "low"] then
    if length_on_platform ≤ 2 then
      .early "Decline" 0 "Customer is <= 2 months old on the platform with low credit quality."
    else if 3 ≤ length_on_platform ∧ length_on_platform ≤ 5 then
      .sized (min (0.2 * median_avg_credits_per_month) 10000) default_reason
    else
      .sized (min (0.3 * median_avg_credits_per_month) 15000) default_reason
  else
    if py_lower crb_cr_quality ∈ ["moderate", "high", "highest"] then
      if length_on_platform ≤ 1 then
        .early "Decline" 0 "Customer is <= 1 month old on the platform."
      else if 2 ≤ length_on_platform ∧ length_on_platform ≤ 5 then
        .sized (min (0.3 * median_avg_credits_per_month) 20000) default_reason
      else
        if avg_sum_credits_per_month < 1000 then
          .sized 0 no_qualify_reason
        else if 1000 ≤ avg_sum_credits_per_month ∧ avg_sum_credits_per_month ≤ 100000 then
          .sized (min (0.4 * median_avg_credits_per_month) 25000) default_reason
        else
          .sized (min (0.5 * median_avg_credits_per_month) 30000) default_reason
    else
      .sized 0 default_reason

/-- The "Business Category" sizing arm, lines 124-146 of the source. -/
def bus_limit (crb_cr_quality : String)
    (length_on_platform median_avg_credits_per_month avg_sum_credits_per_month : ℚ) :
    SizeResult :=
  if py_lower crb_cr_quality ∈ ["lowest", "low"] then
    if length_on_platform ≤ 2 then
      .early "Decline" 0 "Customer is <= 2 months old on the platform with low credit quality."
    else if 3 ≤ length_on_platform ∧ length_on_platform ≤ 5 then
      .sized (min (0.45 * median_avg_credits_per_month) 50000) default_reason
    else
      .sized (min (0.55 * median_avg_credits_per_month) 100000) default_reason
  else
    if py_lower crb_cr_quality ∈ ["moderate", "high", "highest"] then
      if length_on_platform ≤ 1 then
        .early "Decline" 0 "Customer is <= 1 month old on the platform."
      else if 2 ≤ length_on_platform ∧ length_on_platform ≤ 5 then
        .sized (min (0.6 * median_avg_credits_per_month) 150000) default_reason
      else
        if avg_sum_credits_per_month < 1000 then
          .sized 0 no_qualify_reason
        else if 1000 ≤ avg_sum_credits_per_month ∧ avg_sum_credits_per_month ≤ 100000 then
          .sized (min (0.65 * median_avg_credits_per_month) 200000) default_reason
        else
          .sized (min (0.7 * median_avg_credits_per_month) 350000) default_reason
    else
      .sized 0 default_reason

/-- The finalization of lines 96 and 148-154 of the source: `decision` was
initialized to Decline; it becomes Accept when the (unrounded) limit is
positive; the `elif decision == Accept and credit_limit == 0` branch is kept
as written; the returned limit is rounded. -/
def finalize (credit_limit : ℚ) (reason : String) : String × ℚ × String :=
  let decision := "Decline"
  if credit_limit > 0 then
    ("Accept", round10 credit_limit, reason)
  else if decision = "Accept" ∧ credit_limit = 0 then
    (decision, round10 credit_limit, accept_zero_reason)
  else
    (decision, round10 credit_limit, reason)

/-- The scorecard function `set_credit_limit` (lines 8-154 of the source):
validation checks in source order, customer categorization, the four-gate
decline cascade, the category sizing arms, and the finalization with the
rounded limit. Returns the `(decision, credit_limit, reason)` triple, or the
exception the Python function would raise. -/
def set_credit_limit (avg_ntxns_per_month avg_sum_credits_per_month
    median_avg_credits_per_month businesstype crb_cr_quality crb_listing
    length_on_platform : PyVal) : Except PyError (String × ℚ × String) :=
  match avg_ntxns_per_month with
  | .str _ | .other =>
    .error (.valueError "Average number of transactions per month must be numeric.")
  | .num avg_ntxns_per_month =>
  match avg_sum_credits_per_month with
  | .str _ | .other =>
    .error (.valueError "Average sum of credits per month must be numeric.")
  | .num avg_sum_credits_per_month =>
  match median_avg_credits_per_month with
  | .str _ | .other =>
    .error (.valueError "Median of the average credits per month must be numeric.")
  | .num median_avg_credits_per_month =>
  match length_on_platform with
  | .str _ | .other =>
    .error (.valueError "Length on platform must be numeric.")
  | .num length_on_platform =>
  match crb_cr_quality with
  | .num _ | .other =>
    .error (.valueError "CRB credit quality value must be a string.")
  | .str crb_cr_quality =>
  if ¬ (py_lower crb_cr_quality ∈ quality_levels) then
    .error (.valueError "CRB credit quality value must be either \x27Defaulter\x27, \x27Lowest\x27, \x27Low\x27, \x27Moderate\x27, \x27High\x27 or \x27Highest\x27.")
  else
  match crb_listing with
  | .num _ | .other =>
    .error (.attributeError "object has no attribute lower")
  | .str crb_listing =>
  if ¬ (py_lower crb_listing ∈ ["neg", "pos"]) then
    .error (.valueError "CRB listing can only take the values \x27Neg\x27 or \x27Pos\x27.")
  else
  match businesstype with
  | .num _ | .other =>
    .error (.valueError "Business type value must be a string.")
  | .str businesstype =>
  let businesstype := py_upper businesstype
  if ¬ (businesstype ∈ business_types) then
    .error (.valueError "Business type value must be either \x27INDIVIDUAL\x27, \x27SOLE_PROPRIETOR\x27, \x27UNREGISTERED\x27, \x27LIMITED_COMPANY\x27, or \x27PARTNERSHIP\x27.")
  else
  let category := if businesstype ∈ ["INDIVIDUAL", "SOLE_PROPRIETOR", "UNREGISTERED"]
    then "IND" else "BUS"
  if py_lower crb_listing = "neg" then
    .ok ("Decline", 0, "Customer has a negative CRB listing status.")
  else if avg_ntxns_per_month ≤ 1 then
    .ok ("Decline", 0, "Customer has < 2 average transactions per month.")
  else if avg_sum_credits_per_month < 1000 then
    .ok ("Decline", 0, "Customer has an average sum of credit amount per month < 1k.")
  else if py_lower crb_cr_quality = "defaulter" then
    .ok ("Decline", 0, "Customer categorized as a defaulter in CRB credit quality.")
  else
  let sizing :=
    if py_lower category = "ind" then
      ind_limit crb_cr_quality length_on_platform median_avg_credits_per_month
        avg_sum_credits_per_month
    else
      bus_limit crb_cr_quality length_on_platform median_avg_credits_per_month
        avg_sum_credits_per_month
  match sizing with
  | .early decision credit_limit reason => .ok (decision, credit_limit, reason)
  | .sized credit_limit reason => .ok (finalize credit_limit reason)

instance {α β : Type} [DecidableEq α] [DecidableEq β] : DecidableEq (Except α β)
  | .error a, .error b =>
    if h : a = b then isTrue (by rw [h]) else isFalse (fun hh => h (Except.error.inj hh))
  | .error _, .ok _ => isFalse (fun h => Except.noConfusion h)
  | .ok _, .error _ => isFalse (fun h => Except.noConfusion h)
  | .ok a, .ok b =>
    if h : a = b then isTrue (by rw [h]) else isFalse (fun hh => h (Except.ok.inj hh))

/-- Rounding a non-negative quotient stays non-negative. -/
lemma round_half_even_nonneg {q : ℚ} (hq : 0 ≤ q) : 0 ≤ round_half_even q := by
  have hf : (0 : ℤ) ≤ ⌊q⌋ := Int.floor_nonneg.mpr hq
  unfold round_half_even
  split_ifs <;> omega

/-- The rounded limit of a non-negative sized limit is non-negative. -/
lemma round10_nonneg {q : ℚ} (hq : 0 ≤ q) : 0 ≤ round10 q := by
  have h : 0 ≤ round_half_even (q / 10) := round_half_even_nonneg (by positivity)
  unfold round10
  have : (0 : ℚ) ≤ (round_half_even (q / 10) : ℚ) := by exact_mod_cast h
  nlinarith

/-- Rounding zero is a no-op. -/
lemma round10_zero : round10 0 = 0 := by
  unfold round10 round_half_even
  norm_num

/-- The rounded limit is always an integer multiple of 10. -/
lemma round10_mul_ten (q : ℚ) : ∃ k : ℤ, round10 q = 10 * k := by
  exact ⟨round_half_even (q / 10), by unfold round10; ring⟩

/-- Every early return of the individual sizing arm declines with limit 0 and
one of the two too-new reasons. -/
lemma ind_limit_early_shape (q : String) (len med sum : ℚ) (d : String) (cl : ℚ) (r : String)
    (h : ind_limit q len med sum = .early d cl r) :
    d = "Decline" ∧ cl = 0 ∧
      (r = "Customer is <= 2 months old on the platform with low credit quality." ∨
        r = "Customer is <= 1 month old on the platform.") := by
  unfold ind_limit at h
  split_ifs at h <;> simp_all

/-- Every early return of the business sizing arm declines with limit 0 and
one of the two too-new reasons. -/
lemma bus_limit_early_shape (q : String) (len med sum : ℚ) (d : String) (cl : ℚ) (r : String)
    (h : bus_limit q len med sum = .early d cl r) :
    d = "Decline" ∧ cl = 0 ∧
      (r = "Customer is <= 2 months old on the platform with low credit quality." ∨
        r = "Customer is <= 1 month old on the platform.") := by
  unfold bus_limit at h
  split_ifs at h <;> simp_all

/-- With a non-negative median, every fall-through of the individual sizing
arm computes a non-negative limit. -/
lemma ind_limit_sized_nonneg (q : String) (len med sum : ℚ) (hmed : 0 ≤ med) (cl : ℚ)
    (r : String) (h : ind_limit q len med sum = .sized cl r) : 0 ≤ cl := by
  unfold ind_limit at h
  split_ifs at h <;>
    first
    | exact SizeResult.noConfusion h
    | (injection h with h1 h2
       subst h1
       first
       | exact le_min (mul_nonneg (by norm_num) hmed) (by norm_num)
       | norm_num)

/-- With a non-negative median, every fall-through of the business sizing arm
computes a non-negative limit. -/
lemma bus_limit_sized_nonneg (q : String) (len med sum : ℚ) (hmed : 0 ≤ med) (cl : ℚ)
    (r : String) (h : bus_limit q len med sum = .sized cl r) : 0 ≤ cl := by
  unfold bus_limit at h
  split_ifs at h <;>
    first
    | exact SizeResult.noConfusion h
    | (injection h with h1 h2
       subst h1
       first
       | exact le_min (mul_nonneg (by norm_num) hmed) (by norm_num)
       | norm_num)

/-- When the monthly credit sum is at least 1000, the individual sizing arm
can only fall through with the default reason: its forced-zero branch is dead. -/
lemma ind_limit_sized_reason (q : String) (len med sum : ℚ) (hsum : ¬ sum < 1000) (cl : ℚ)
    (r : String) (h : ind_limit q len med sum = .sized cl r) : r = default_reason := by
  unfold ind_limit at h
  split_ifs at h <;>
    first
    | exact SizeResult.noConfusion h
    | exact absurd ‹sum < 1000› hsum
    | (injection h with h1 h2
       exact h2.symm)

/-- When the monthly credit sum is at least 1000, the business sizing arm can
only fall through with the default reason: its forced-zero branch is dead. -/
lemma bus_limit_sized_reason (q : String) (len med sum : ℚ) (hsum : ¬ sum < 1000) (cl : ℚ)
    (r : String) (h : bus_limit q len med sum = .sized cl r) : r = default_reason := by
  unfold bus_limit at h
  split_ifs at h <;>
    first
    | exact SizeResult.noConfusion h
    | exact absurd ‹sum < 1000› hsum
    | (injection h with h1 h2
       exact h2.symm)

/-- When the sized limit is positive, finalization accepts with the rounded
limit and the reason it was handed. -/
lemma finalize_pos {cl : ℚ} (r : String) (h : 0 < cl) :
    finalize cl r = ("Accept", round10 cl, r) := by
  unfold finalize
  rw [if_pos h]

/-- When the sized limit is not positive, finalization declines with the
rounded limit and the reason it was handed: the accept-but-zero branch is
dead because `decision` is still Decline there. -/
lemma finalize_nonpos {cl : ℚ} (r : String) (h : ¬ cl > 0) :
    finalize cl r = ("Decline", round10 cl, r) := by
  unfold finalize
  rw [if_neg h, if_neg]
  exact fun hc => absurd hc.1 (by decide)

/-- Finalization never changes the reason: in particular it never substitutes
the accept-but-zero reason text. -/
lemma finalize_reason (cl : ℚ) (r : String) : (finalize cl r).2.2 = r := by
  by_cases h : cl > 0
  · rw [finalize_pos r h]
  · rw [finalize_nonpos r h]

/-- Shape of the result on an early-return sizing path: the decline triple is
returned unrounded, so the limit is 0, a multiple of 10, and Decline. -/
lemma tail_early_spec (d0 : String) (cl0 : ℚ) (r0 : String)
    (hshape : d0 = "Decline" ∧ cl0 = 0) (d : String) (l : ℚ) (r : String)
    (h : (Except.ok (d0, cl0, r0) : Except PyError (String × ℚ × String))
      = Except.ok (d, l, r)) :
    0 ≤ l ∧ (∃ k : ℤ, l = 10 * k) ∧ (0 < l → d = "Accept") ∧ (d = "Decline" → l = 0) := by
  obtain ⟨hd0, hcl0⟩ := hshape
  subst hd0
  subst hcl0
  simp only [Except.ok.injEq, Prod.mk.injEq] at h
  obtain ⟨hd, hl, hr⟩ := h
  subst hd
  subst hl
  exact ⟨le_refl 0, ⟨0, by norm_num⟩, fun h0 => absurd h0 (by norm_num), fun _ => rfl⟩

/-- Shape of the result on a fall-through sizing path with a non-negative
sized limit: the finalized limit is a non-negative multiple of 10, Accept
appears exactly on a positive unrounded limit, Decline carries limit 0. -/
lemma tail_sized_spec (cl0 : ℚ) (r0 : String) (hcl : 0 ≤ cl0)
    (d : String) (l : ℚ) (r : String)
    (h : (Except.ok (finalize cl0 r0) : Except PyError (String × ℚ × String))
      = Except.ok (d, l, r)) :
    0 ≤ l ∧ (∃ k : ℤ, l = 10 * k) ∧ (0 < l → d = "Accept") ∧ (d = "Decline" → l = 0) := by
  by_cases hpos : cl0 > 0
  · rw [finalize_pos r0 hpos] at h
    simp only [Except.ok.injEq, Prod.mk.injEq] at h
    obtain ⟨hd, hl, hr⟩ := h
    subst hd
    subst hl
    exact ⟨round10_nonneg hcl, round10_mul_ten cl0, fun _ => rfl,
      fun hdd => absurd hdd (by decide)⟩
  · have hz : cl0 = 0 := le_antisymm (not_lt.mp hpos) hcl
    subst hz
    rw [finalize_nonpos r0 hpos, round10_zero] at h
    simp only [Except.ok.injEq, Prod.mk.injEq] at h
    obtain ⟨hd, hl, hr⟩ := h
    subst hd
    subst hl
    exact ⟨le_refl 0, ⟨0, by norm_num⟩, fun h0 => absurd h0 (by norm_num), fun _ => rfl⟩

/-- Every successful result on a well-typed profile with a non-negative
median has a non-negative limit that is a multiple of 10; Accept appears only
with a positive unrounded limit and Decline always reports limit 0. -/
lemma set_credit_limit_ok_limit (a s m len : ℚ) (bt q lst : String) (hm : 0 ≤ m)
    (d : String) (l : ℚ) (r : String)
    (h : set_credit_limit (.num a) (.num s) (.num m) (.str bt) (.str q) (.str lst) (.num len)
      = .ok (d, l, r)) :
    0 ≤ l ∧ (∃ k : ℤ, l = 10 * k) ∧ (0 < l → d = "Accept") ∧ (d = "Decline" → l = 0) := by
  simp only [set_credit_limit] at h
  split_ifs at h
  all_goals try exact absurd (by decide : py_lower "IND" = "ind") (by assumption)
  all_goals try exact absurd (by assumption : py_lower "BUS" = "ind") (by decide)
  all_goals try
    (simp only [Except.ok.injEq, Prod.mk.injEq] at h
     obtain ⟨hd, hl, hr⟩ := h
     subst hd
     subst hl
     exact ⟨le_refl 0, ⟨0, by norm_num⟩, fun h0 => absurd h0 (by norm_num), fun _ => rfl⟩)
  · cases hsz : ind_limit q len m s with
    | early d0 cl0 r0 =>
      rw [hsz] at h
      exact tail_early_spec d0 cl0 r0
        ⟨(ind_limit_early_shape _ _ _ _ _ _ _ hsz).1,
          (ind_limit_early_shape _ _ _ _ _ _ _ hsz).2.1⟩ d l r h
    | sized cl0 r0 =>
      rw [hsz] at h
      exact tail_sized_spec cl0 r0 (ind_limit_sized_nonneg _ _ _ _ hm _ _ hsz) d l r h
  · cases hsz : bus_limit q len m s with
    | early d0 cl0 r0 =>
      rw [hsz] at h
      exact tail_early_spec d0 cl0 r0
        ⟨(bus_limit_early_shape _ _ _ _ _ _ _ hsz).1,
          (bus_limit_early_shape _ _ _ _ _ _ _ hsz).2.1⟩ d l r h
    | sized cl0 r0 =>
      rw [hsz] at h
      exact tail_sized_spec cl0 r0 (bus_limit_sized_nonneg _ _ _ _ hm _ _ hsz) d l r h

/-- Every reason a successful call can return is one of the four gate
reasons, one of the two too-new reasons, or the default reason: neither the
forced-zero sizing reason nor the accept-but-zero reason is reachable. -/
lemma set_credit_limit_ok_reason (a s m len : ℚ) (bt q lst : String)
    (d : String) (l : ℚ) (r : String)
    (h : set_credit_limit (.num a) (.num s) (.num m) (.str bt) (.str q) (.str lst) (.num len)
      = .ok (d, l, r)) :
    r = "Customer has a negative CRB listing status." ∨
    r = "Customer has < 2 average transactions per month." ∨
    r = "Customer has an average sum of credit amount per month < 1k." ∨
    r = "Customer categorized as a defaulter in CRB credit quality." ∨
    r = "Customer is <= 2 months old on the platform with low credit quality." ∨
    r = "Customer is <= 1 month old on the platform." ∨
    r = default_reason := by
  simp only [set_credit_limit] at h
  split_ifs at h
  all_goals try exact absurd (by decide : py_lower "IND" = "ind") (by assumption)
  all_goals try exact absurd (by assumption : py_lower "BUS" = "ind") (by decide)
  all_goals try
    (simp only [Except.ok.injEq, Prod.mk.injEq] at h
     obtain ⟨-, -, hr⟩ := h
     subst hr
     decide)
  · cases hsz : ind_limit q len m s with
    | early d0 cl0 r0 =>
      rw [hsz] at h
      have hr0 := (ind_limit_early_shape _ _ _ _ _ _ _ hsz).2.2
      simp only [Except.ok.injEq, Prod.mk.injEq] at h
      obtain ⟨-, -, hr⟩ := h
      subst hr
      rcases hr0 with h5 | h6
      · rw [h5]
        decide
      · rw [h6]
        decide
    | sized cl0 r0 =>
      rw [hsz] at h
      have hr0 : r0 = default_reason :=
        ind_limit_sized_reason q len m s (by assumption) cl0 r0 hsz
      have hfr := finalize_reason cl0 r0
      simp only [Except.ok.injEq] at h
      rw [h] at hfr
      simp only at hfr
      rw [hfr, hr0]
      decide
  · cases hsz : bus_limit q len m s with
    | early d0 cl0 r0 =>
      rw [hsz] at h
      have hr0 := (bus_limit_early_shape _ _ _ _ _ _ _ hsz).2.2
      simp only [Except.ok.injEq, Prod.mk.injEq] at h
      obtain ⟨-, -, hr⟩ := h
      subst hr
      rcases hr0 with h5 | h6
      · rw [h5]
        decide
      · rw [h6]
        decide
    | sized cl0 r0 =>
      rw [hsz] at h
      have hr0 : r0 = default_reason :=
        bus_limit_sized_reason q len m s (by assumption) cl0 r0 hsz
      have hfr := finalize_reason cl0 r0
      simp only [Except.ok.injEq] at h
      rw [h] at hfr
      simp only at hfr
      rw [hfr, hr0]
      decide


/-- A successful result forces every argument to be well typed: the four
quantities numeric and the three enumerated fields strings — otherwise a
validation error (or the listing attribute error) had been raised. -/
lemma set_credit_limit_ok_welltyped (v1 v2 v3 v4 v5 v6 v7 : PyVal)
    (d : String) (l : ℚ) (r : String)
    (h : set_credit_limit v1 v2 v3 v4 v5 v6 v7 = .ok (d, l, r)) :
    ∃ (a s m len : ℚ) (bt q lst : String),
      v1 = .num a ∧ v2 = .num s ∧ v3 = .num m ∧ v7 = .num len ∧
      v4 = .str bt ∧ v5 = .str q ∧ v6 = .str lst := by
  cases v1 with
  | str s1 => exact Except.noConfusion h
  | other => exact Except.noConfusion h
  | num a =>
  cases v2 with
  | str s1 => exact Except.noConfusion h
  | other => exact Except.noConfusion h
  | num s =>
  cases v3 with
  | str s1 => exact Except.noConfusion h
  | other => exact Except.noConfusion h
  | num m =>
  cases v7 with
  | str s1 => exact Except.noConfusion h
  | other => exact Except.noConfusion h
  | num len =>
  cases v5 with
  | num q1 => exact Except.noConfusion h
  | other => exact Except.noConfusion h
  | str qs =>
  cases v6 with
  | num q1 =>
    simp only [set_credit_limit] at h
    split_ifs at h
  | other =>
    simp only [set_credit_limit] at h
    split_ifs at h
  | str ls =>
  cases v4 with
  | num q1 =>
    simp only [set_credit_limit] at h
    split_ifs at h
  | other =>
    simp only [set_credit_limit] at h
    split_ifs at h
  | str bs => exact ⟨a, s, m, len, bs, qs, ls, rfl, rfl, rfl, rfl, rfl, rfl, rfl⟩

/-- Spec scenario 1: an individual of Moderate quality, 10 months on the
platform, median 10000 — accepted with limit 0.4 x 10000 = 4000. -/
lemma scenario1_eval : set_credit_limit (.num 5) (.num 5000) (.num 10000) (.str "INDIVIDUAL")
    (.str "Moderate") (.str "Pos") (.num 10) = .ok ("Accept", 4000, default_reason) := by
  have h1 : py_lower "Moderate" = "moderate" := by decide
  have h2 : py_lower "Pos" = "pos" := by decide
  have h3 : py_upper "INDIVIDUAL" = "INDIVIDUAL" := by decide
  have h4 : py_lower "IND" = "ind" := by decide
  norm_num +decide [set_credit_limit, ind_limit, finalize, quality_levels, business_types,
    round10, round_half_even, Int.fract, h1, h2, h3, h4, min_def, default_reason]

/-- Spec scenario 3: a partnership of High quality, 4 months on the platform,
median 100000 — accepted with limit 0.6 x 100000 = 60000. -/
lemma scenario3_eval : set_credit_limit (.num 3) (.num 2000) (.num 100000) (.str "PARTNERSHIP")
    (.str "High") (.str "Pos") (.num 4) = .ok ("Accept", 60000, default_reason) := by
  have h1 : py_lower "High" = "high" := by decide
  have h2 : py_lower "Pos" = "pos" := by decide
  have h3 : py_upper "PARTNERSHIP" = "PARTNERSHIP" := by decide
  have h4 : py_lower "BUS" = "bus" := by decide
  norm_num +decide [set_credit_limit, bus_limit, finalize, quality_levels, business_types,
    round10, round_half_even, Int.fract, h1, h2, h3, h4, min_def, default_reason]

/-- Spec scenario 4 as the code actually computes it: with sum 2000 the
1000-100000 band applies, so the limit is min(0.65 x 1000000, 200000) =
200000 — not the 350000 the spec's scenario expects. -/
lemma scenario4_eval : set_credit_limit (.num 3) (.num 2000) (.num 1000000)
    (.str "LIMITED_COMPANY") (.str "Highest") (.str "Pos") (.num 12) =
    .ok ("Accept", 200000, default_reason) := by
  have h1 : py_lower "Highest" = "highest" := by decide
  have h2 : py_lower "Pos" = "pos" := by decide
  have h3 : py_upper "LIMITED_COMPANY" = "LIMITED_COMPANY" := by decide
  have h4 : py_lower "BUS" = "bus" := by decide
  norm_num +decide [set_credit_limit, bus_limit, finalize, quality_levels, business_types,
    round10, round_half_even, Int.fract, h1, h2, h3, h4, min_def, default_reason]

/-- A valid profile whose sized limit is 2 (0.2 x 10): the decision is set to
Accept because the unrounded limit is positive, but the returned limit rounds
down to 0 — an Accept-with-zero result. -/
lemma accept_zero_eval : set_credit_limit (.num 2) (.num 1000) (.num 10) (.str "INDIVIDUAL")
    (.str "Low") (.str "Pos") (.num 3) = .ok ("Accept", 0, default_reason) := by
  have h1 : py_lower "Low" = "low" := by decide
  have h2 : py_lower "Pos" = "pos" := by decide
  have h3 : py_upper "INDIVIDUAL" = "INDIVIDUAL" := by decide
  have h4 : py_lower "IND" = "ind" := by decide
  norm_num +decide [set_credit_limit, ind_limit, finalize, quality_levels, business_types,
    round10, round_half_even, Int.fract, h1, h2, h3, h4, min_def, default_reason]

/-- C1 (counterexample): the profile ntxns=2, sum=1000, median=10,
INDIVIDUAL/Low/Pos, 3 months clears every gate; the sized limit 0.2 x 10 = 2
is positive, so decision becomes Accept, yet the returned rounded limit is 0.
The claimed equivalence `decision = Accept iff credit_limit > 0` therefore
fails at this input. -/
theorem C1_counterexample :
    set_credit_limit (.num 2) (.num 1000) (.num 10) (.str "INDIVIDUAL") (.str "Low")
      (.str "Pos") (.num 3) = .ok ("Accept", 0, default_reason) ∧
    ¬ ((("Accept" : String) = "Accept") ↔ ((0 : ℚ) > 0)) := by
  refine ⟨accept_zero_eval, fun hiff => ?_⟩
  exact absurd (hiff.mp rfl) (by norm_num)

/-- C1 (amended): for every valid profile (non-negative numeric fields) on
which `set_credit_limit` returns a result, a positive returned credit limit
forces decision Accept, and decision Decline forces credit limit 0; the
converse direction fails because a positive sized limit below 5 rounds to 0
while the decision is already Accept. -/
theorem C1_decision_limit_invariant (a s m len : ℚ) (bt q lst : String)
    (ha : 0 ≤ a) (hs : 0 ≤ s) (hm : 0 ≤ m) (hlen : 0 ≤ len)
    (d : String) (l : ℚ) (r : String)
    (h : set_credit_limit (.num a) (.num s) (.num m) (.str bt) (.str q) (.str lst) (.num len)
      = .ok (d, l, r)) :
    (0 < l → d = "Accept") ∧ (d = "Decline" → l = 0) :=
  ⟨(set_credit_limit_ok_limit a s m len bt q lst hm d l r h).2.2.1,
   (set_credit_limit_ok_limit a s m len bt q lst hm d l r h).2.2.2⟩

/-- C1 (witness): the amended invariant instantiated on spec scenario 1. -/
theorem C1_witness :
    (0 < (4000 : ℚ) → ("Accept" : String) = "Accept") ∧
    (("Accept" : String) = "Decline" → (4000 : ℚ) = 0) :=
  C1_decision_limit_invariant 5 5000 10000 10 "INDIVIDUAL" "Moderate" "Pos"
    (by norm_num) (by norm_num) (by norm_num) (by norm_num)
    "Accept" 4000 default_reason scenario1_eval

/-- C2: on any profile that passes validation, the gate cascade is evaluated
in source order — negative listing first, then ntxns <= 1, then sum < 1000,
then Defaulter — and the first matching gate alone determines the declined
result, whatever the remaining fields hold. -/
theorem C2_gate_cascade (a s m len : ℚ) (bt q lst : String)
    (hq : py_lower q ∈ quality_levels) (hbt : py_upper bt ∈ business_types) :
    (py_lower lst = "neg" →
      set_credit_limit (.num a) (.num s) (.num m) (.str bt) (.str q) (.str lst) (.num len)
        = .ok ("Decline", 0, "Customer has a negative CRB listing status.")) ∧
    (py_lower lst = "pos" → a ≤ 1 →
      set_credit_limit (.num a) (.num s) (.num m) (.str bt) (.str q) (.str lst) (.num len)
        = .ok ("Decline", 0, "Customer has < 2 average transactions per month.")) ∧
    (py_lower lst = "pos" → ¬ a ≤ 1 → s < 1000 →
      set_credit_limit (.num a) (.num s) (.num m) (.str bt) (.str q) (.str lst) (.num len)
        = .ok ("Decline", 0, "Customer has an average sum of credit amount per month < 1k.")) ∧
    (py_lower lst = "pos" → ¬ a ≤ 1 → ¬ s < 1000 → py_lower q = "defaulter" →
      set_credit_limit (.num a) (.num s) (.num m) (.str bt) (.str q) (.str lst) (.num len)
        = .ok ("Decline", 0, "Customer categorized as a defaulter in CRB credit quality.")) := by
  refine ⟨fun h1 => ?_, fun h1 h2 => ?_, fun h1 h2 h3 => ?_, fun h1 h2 h3 h4 => ?_⟩
  · simp +decide [set_credit_limit, hq, hbt, h1]
  · simp +decide [set_credit_limit, hq, hbt, h1, h2]
  · simp +decide [set_credit_limit, hq, hbt, h1, h2, h3]
  · simp +decide [set_credit_limit, hq, hbt, h1, h2, h3, h4]

/-- C2 (witness): a profile failing the listing gate, the credit-sum gate and
the Defaulter gate at once reports only the first gate's reason. -/
theorem C2_witness :
    set_credit_limit (.num 5) (.num 500) (.num 10000) (.str "INDIVIDUAL") (.str "Defaulter")
      (.str "NEG") (.num 3) = .ok ("Decline", 0, "Customer has a negative CRB listing status.") :=
  (C2_gate_cascade 5 500 10000 3 "INDIVIDUAL" "Defaulter" "NEG" (by decide) (by decide)).1
    (by decide)

/-- C3: whenever `crb_cr_quality` is a string outside the six recognized
levels, the call raises a ValueError — no gate or sizing result is produced —
whatever the other six arguments are, including a Neg listing that would
otherwise decline early. -/
theorem C3_invalid_quality_raises (v1 v2 v3 v4 v6 v7 : PyVal) (qs : String)
    (hq : ¬ py_lower qs ∈ quality_levels) :
    ∃ msg, set_credit_limit v1 v2 v3 v4 (.str qs) v6 v7 = .error (.valueError msg) := by
  cases v1 with
  | str s1 => exact ⟨_, rfl⟩
  | other => exact ⟨_, rfl⟩
  | num a =>
  cases v2 with
  | str s1 => exact ⟨_, rfl⟩
  | other => exact ⟨_, rfl⟩
  | num s =>
  cases v3 with
  | str s1 => exact ⟨_, rfl⟩
  | other => exact ⟨_, rfl⟩
  | num m =>
  cases v7 with
  | str s1 => exact ⟨_, rfl⟩
  | other => exact ⟨_, rfl⟩
  | num len =>
  refine ⟨"CRB credit quality value must be either \x27Defaulter\x27, \x27Lowest\x27, \x27Low\x27, \x27Moderate\x27, \x27High\x27 or \x27Highest\x27.", ?_⟩
  simp only [set_credit_limit]
  rw [if_pos hq]

/-- C3 (witness): an unrecognized quality string raises even next to a Neg
listing. -/
theorem C3_witness :
    ∃ msg, set_credit_limit (.num 5) (.num 5000) (.num 10000) (.str "INDIVIDUAL")
      (.str "bad") (.str "Neg") (.num 10) = .error (.valueError msg) :=
  C3_invalid_quality_raises (.num 5) (.num 5000) (.num 10000) (.str "INDIVIDUAL")
    (.str "Neg") (.num 10) "bad" (by decide)

/-- C4 (code bug evaluation): a non-string `crb_listing` reaches the
unguarded `crb_listing.lower()` call of line 62 and raises AttributeError —
not the ValueError the spec (and the function's own docstring) promise for
invalid inputs. -/
theorem C4_nonstring_listing_attribute_error :
    set_credit_limit (.num 2) (.num 2000) (.num 10000) (.str "INDIVIDUAL") (.str "High")
      (.num 5) (.num 6) = .error (.attributeError "object has no attribute lower") := by
  decide

/-- C5: on every valid profile (non-negative numeric fields) that produces a
result, the returned credit limit is non-negative and an integer multiple
of 10 — the early declines return the literal 0 and the fall-through path
returns `round(limit / 10) * 10`. -/
theorem C5_limit_nonneg_multiple_of_ten (a s m len : ℚ) (bt q lst : String)
    (ha : 0 ≤ a) (hs : 0 ≤ s) (hm : 0 ≤ m) (hlen : 0 ≤ len)
    (d : String) (l : ℚ) (r : String)
    (h : set_credit_limit (.num a) (.num s) (.num m) (.str bt) (.str q) (.str lst) (.num len)
      = .ok (d, l, r)) :
    0 ≤ l ∧ ∃ k : ℤ, l = 10 * k :=
  ⟨(set_credit_limit_ok_limit a s m len bt q lst hm d l r h).1,
   (set_credit_limit_ok_limit a s m len bt q lst hm d l r h).2.1⟩

/-- C5 (witness): instantiated on spec scenario 1, whose limit 4000 is
10 x 400. -/
theorem C5_witness : 0 ≤ (4000 : ℚ) ∧ ∃ k : ℤ, (4000 : ℚ) = 10 * k :=
  C5_limit_nonneg_multiple_of_ten 5 5000 10000 10 "INDIVIDUAL" "Moderate" "Pos"
    (by norm_num) (by norm_num) (by norm_num) (by norm_num)
    "Accept" 4000 default_reason scenario1_eval

/-- C6 (counterexample): on scenario 4's inputs the code returns limit
200000, because sum = 2000 lies in the 1000-100000 band (factor 0.65, cap
200000); the claimed 350000 would require sum > 100000. -/
theorem C6_counterexample :
    set_credit_limit (.num 3) (.num 2000) (.num 1000000) (.str "LIMITED_COMPANY")
      (.str "Highest") (.str "Pos") (.num 12) = .ok ("Accept", 200000, default_reason) ∧
    (200000 : ℚ) ≠ 350000 :=
  ⟨scenario4_eval, by norm_num⟩

/-- C6 (amended): on the scenario 4 inputs the call returns Accept with
credit limit 200000 = min(0.65 x 1000000, 200000) and the default reason. -/
theorem C6_scenario4_returns_200000 :
    set_credit_limit (.num 3) (.num 2000) (.num 1000000) (.str "LIMITED_COMPANY")
      (.str "Highest") (.str "Pos") (.num 12) = .ok ("Accept", 200000, default_reason) :=
  scenario4_eval

/-- C7: in the business arm, a Moderate/High/Highest quality with 2 to 5
months on the platform sizes the limit to min(0.60 x median, 150000) with the
default reason; scenario 3 instantiates this to an accepted limit of 60000. -/
theorem C7_bus_moderate_band (q : String) (len med sum : ℚ)
    (hq : py_lower q ∈ (["moderate", "high", "highest"] : List String))
    (h2 : 2 ≤ len) (h5 : len ≤ 5) :
    bus_limit q len med sum = .sized (min (0.6 * med) 150000) default_reason ∧
    set_credit_limit (.num 3) (.num 2000) (.num 100000) (.str "PARTNERSHIP") (.str "High")
      (.str "Pos") (.num 4) = .ok ("Accept", 60000, default_reason) := by
  constructor
  · have hq3 : py_lower q = "moderate" ∨ py_lower q = "high" ∨ py_lower q = "highest" := by
      simpa using hq
    have hnot : ¬ py_lower q ∈ (["lowest", "low"] : List String) := by
      rcases hq3 with h | h | h <;> rw [h] <;> decide
    have hlen1 : ¬ len ≤ 1 := by linarith
    unfold bus_limit
    rw [if_neg hnot, if_pos hq, if_neg hlen1, if_pos (⟨h2, h5⟩ : 2 ≤ len ∧ len ≤ 5)]
  · exact scenario3_eval

/-- C7 (witness): the band formula instantiated at scenario 3's values. -/
theorem C7_witness :
    bus_limit "High" 4 100000 2000 = .sized (min (0.6 * 100000) 150000) default_reason ∧
    set_credit_limit (.num 3) (.num 2000) (.num 100000) (.str "PARTNERSHIP") (.str "High")
      (.str "Pos") (.num 4) = .ok ("Accept", 60000, default_reason) :=
  C7_bus_moderate_band "High" 4 100000 2000 (by decide) (by norm_num) (by norm_num)

/-- C8: the result depends on the string fields only through their upper
case (business type) or lower case (quality, listing): any capitalization
variants of the three enumerated fields produce identical results. -/
theorem C8_case_insensitive (a s m len : ℚ) (bt1 bt2 q1 q2 l1 l2 : String)
    (hbt : py_upper bt1 = py_upper bt2) (hq : py_lower q1 = py_lower q2)
    (hl : py_lower l1 = py_lower l2) :
    set_credit_limit (.num a) (.num s) (.num m) (.str bt1) (.str q1) (.str l1) (.num len) =
    set_credit_limit (.num a) (.num s) (.num m) (.str bt2) (.str q2) (.str l2) (.num len) := by
  simp only [set_credit_limit, ind_limit, bus_limit, hbt, hq, hl]

/-- C8 (witness): listing NEG versus Neg and business type individual versus
INDIVIDUAL behave identically. -/
theorem C8_witness :
    set_credit_limit (.num 5) (.num 5000) (.num 10000) (.str "individual") (.str "Moderate")
      (.str "NEG") (.num 10) =
    set_credit_limit (.num 5) (.num 5000) (.num 10000) (.str "INDIVIDUAL") (.str "Moderate")
      (.str "Neg") (.num 10) :=
  C8_case_insensitive 5 5000 10000 10 "individual" "INDIVIDUAL" "Moderate" "Moderate"
    "NEG" "Neg" (by decide) (by decide) (by decide)

/-- C9: the forced-zero sizing branches (sum < 1000 after at least 6 months,
in both category arms) are unreachable because gate 3 already declined any
profile with sum < 1000 — so no call ever returns their reason text. -/
theorem C9_no_qualify_reason_unreachable (v1 v2 v3 v4 v5 v6 v7 : PyVal)
    (d : String) (l : ℚ) (r : String)
    (h : set_credit_limit v1 v2 v3 v4 v5 v6 v7 = .ok (d, l, r)) :
    r ≠ no_qualify_reason := by
  obtain ⟨a, s, m, len, bs, qs, ls, e1, e2, e3, e7, e4, e5, e6⟩ :=
    set_credit_limit_ok_welltyped v1 v2 v3 v4 v5 v6 v7 d l r h
  subst e1 e2 e3 e7 e4 e5 e6
  have hcases := set_credit_limit_ok_reason a s m len bs qs ls d l r h
  rcases hcases with h1 | h1 | h1 | h1 | h1 | h1 | h1 <;> rw [h1] <;> decide

/-- C9 (witness): applied to spec scenario 1, whose returned reason is the
default one. -/
theorem C9_witness : default_reason ≠ no_qualify_reason :=
  C9_no_qualify_reason_unreachable (.num 5) (.num 5000) (.num 10000) (.str "INDIVIDUAL")
    (.str "Moderate") (.str "Pos") (.num 10) "Accept" 4000 default_reason scenario1_eval

/-- C10: the accept-but-zero finalization branch is dead — `decision` is
still Decline when it is tested — so the reason text of line 152 is never
returned, on any input whatsoever. -/
theorem C10_accept_zero_reason_unreachable (v1 v2 v3 v4 v5 v6 v7 : PyVal)
    (d : String) (l : ℚ) (r : String)
    (h : set_credit_limit v1 v2 v3 v4 v5 v6 v7 = .ok (d, l, r)) :
    r ≠ accept_zero_reason := by
  obtain ⟨a, s, m, len, bs, qs, ls, e1, e2, e3, e7, e4, e5, e6⟩ :=
    set_credit_limit_ok_welltyped v1 v2 v3 v4 v5 v6 v7 d l r h
  subst e1 e2 e3 e7 e4 e5 e6
  have hcases := set_credit_limit_ok_reason a s m len bs qs ls d l r h
  rcases hcases with h1 | h1 | h1 | h1 | h1 | h1 | h1 <;> rw [h1] <;> decide

/-- C10 (witness): applied to spec scenario 1, whose returned reason is the
default one. -/
theorem C10_witness : default_reason ≠ accept_zero_reason :=
  C10_accept_zero_reason_unreachable (.num 5) (.num 5000) (.num 10000) (.str "INDIVIDUAL")
    (.str "Moderate") (.str "Pos") (.num 10) "Accept" 4000 default_reason scenario1_eval
